import Mathlib

/-!
Shallow embedding of the chrom-ar solver-sdk core: the zod data model of
`src/solver/types.ts`, the signing module (`signProposal` / `signPayload`,
dispatching between an EVM and a Solana backend), and the `WakuTransport`
message router of `src/solver/waku.ts` (type filter, response-building
pipeline, confidential channel, startup sequence).

External collaborators (viem, tweetnacl, the Waku transport) are modelled as
explicit function parameters; a thrown JavaScript exception is modelled as
`Except.error`, a `null`/`undefined` value as `none`, and logger output as an
explicit list of log entries.
-/

namespace SolverSDK

/-- Models JavaScript `String.prototype.toUpperCase` for the ASCII strings
that appear as message-type discriminators. -/
def jsToUpperCase (s : String) : String :=
  String.mk (s.data.map Char.toUpper)

/-- JavaScript whitespace test used by `String.prototype.trim`. -/
def jsIsSpace (c : Char) : Bool :=
  c = ' ' || c = '\t' || c = '\n' || c = '\r'

/-- Models JavaScript `String.prototype.trim`. -/
def jsTrim (s : String) : String :=
  String.mk (((s.data.dropWhile jsIsSpace).reverse.dropWhile jsIsSpace).reverse)

/-- Helper for `jsSplitComma`: splits a character list at each comma. -/
def jsSplitCommaAux : List Char → List Char → List (List Char)
  | [], acc => [acc.reverse]
  | c :: cs, acc =>
    if c = ',' then acc.reverse :: jsSplitCommaAux cs []
    else jsSplitCommaAux cs (c :: acc)

/-- Models JavaScript `String.prototype.split(",")`.  As in JavaScript,
splitting the empty string yields the one-element list containing `""`. -/
def jsSplitComma (s : String) : List String :=
  (jsSplitCommaAux s.data []).map String.mk

/-- Models JavaScript `String.prototype.startsWith`. -/
def jsStartsWith (s pre : String) : Bool :=
  s.data.take pre.data.length == pre.data

/-- JavaScript truthiness of an optional string: `undefined` and `""` are
falsy, every other string is truthy. -/
def jsFalsyOptStr : Option String → Bool
  | none => true
  | some s => s == ""

/-- A JavaScript value that is either a number or a string, as produced by the
zod combinator `z.number().or(z.string())` in `types.ts`. -/
inductive NumOrStr where
  | num (n : Int)
  | str (s : String)
  deriving DecidableEq, Repr

/-- `TransactionSchema` from `types.ts`.  The field `toAddr` models the
schema's `to` field (`to` is a reserved token in Lean). -/
structure Transaction where
  chainId : Int
  toAddr : String
  value : NumOrStr
  data : String
  gasLimit : Option NumOrStr
  gasPrice : Option NumOrStr
  deriving DecidableEq, Repr

/-- `PartialTransactionSchema` from `types.ts`; the `callData` and `callValue`
fields are opaque instruction blobs (`z.any()` accepts anything), modelled as
optional opaque strings. -/
structure PartialTransaction where
  chainId : Int
  toAddr : String
  value : Option NumOrStr
  data : Option String
  gasLimit : Option NumOrStr
  gasPrice : Option NumOrStr
  callData : Option String
  callValue : Option String
  deriving DecidableEq, Repr

/-- A parsed `ProposalResponse`, the output of a successful
`ProposalResponseSchema.parse` in `types.ts`: `description`, `titles` and
`calls` are present, the two transaction lists are optional. -/
structure ProposalResponse where
  description : String
  titles : List String
  calls : List String
  transactions : Option (List Transaction)
  partialTransactions : Option (List PartialTransaction)
  deriving DecidableEq, Repr

/-- An untyped candidate value presented to `ProposalResponseSchema.parse`:
every top-level field may be absent. -/
structure RawProposalResponse where
  description : Option String
  titles : Option (List String)
  calls : Option (List String)
  transactions : Option (List Transaction)
  partialTransactions : Option (List PartialTransaction)
  deriving DecidableEq, Repr

/-- The `.refine` cross-field rule of `ProposalResponseSchema`:
`(data.transactions && data.transactions.length > 0) ||
 (data.partialTransactions && data.partialTransactions.length > 0)`. -/
def proposalRefine (p : ProposalResponse) : Bool :=
  (match p.transactions with
   | some txs => decide (0 < txs.length)
   | none => false) ||
  (match p.partialTransactions with
   | some ptxs => decide (0 < ptxs.length)
   | none => false)

/-- `ProposalResponseSchema.parse` from `types.ts`: the object shape requires
`description` (string), `titles` and `calls` (string lists) to be present,
`transactions` and `partialTransactions` are optional, and the refine rule is
applied on top.  A `none` result models a thrown `ZodError`. -/
def parseProposalResponse (r : RawProposalResponse) : Option ProposalResponse :=
  match r.description, r.titles, r.calls with
  | some d, some ts, some cs =>
    let p : ProposalResponse :=
      { description := d, titles := ts, calls := cs,
        transactions := r.transactions, partialTransactions := r.partialTransactions }
    if proposalRefine p then some p else none
  | _, _, _ => none

/-- `BodyMessageSchema` from `types.ts`: `type` and `fromChain` are required,
every other field is optional. -/
structure BodyMessage where
  type : String
  amount : Option String := none
  fromToken : Option String := none
  fromChain : String
  fromAddress : Option String := none
  toToken : Option String := none
  recipientAddress : Option String := none
  recipientChain : Option String := none
  description : Option String := none
  protocol : Option String := none
  protocols : Option (List String) := none
  transactionHash : Option String := none
  signerPubKey : Option String := none
  deriving DecidableEq, Repr

/-- `WakuMessageSchema` from `types.ts`: the transport envelope. -/
structure WakuMessage where
  timestamp : Int
  replyTo : String
  body : BodyMessage
  deriving DecidableEq, Repr

/-- Convenience constructor for a `WakuMessage` with the two required body
fields and an optional `signerPubKey`. -/
def mkEvent (ty : String) (spk : Option String) : WakuMessage :=
  { timestamp := 0, replyTo := "reply", body := { type := ty, fromChain := "chain", signerPubKey := spk } }

/-- Construction of the `AVAILABLE_TYPES` list in the `WakuTransport`
constructor: `process.env.AVAILABLE_TYPES?.split(",")?.map((type) =>
type.trim().toUpperCase()) || []`.  `none` models an unset variable. -/
def parseAvailableTypes : Option String → List String
  | none => []
  | some s => (jsSplitComma s).map (fun t => jsToUpperCase (jsTrim t))

/-- `validateMessageType` from `waku.ts`: accept every event when
`AVAILABLE_TYPES` is empty, otherwise accept iff the uppercased `body.type`
is contained in the list. -/
def validateMessageType (availableTypes : List String) (event : WakuMessage) : Bool :=
  if availableTypes.length == 0 then true
  else availableTypes.contains (jsToUpperCase event.body.type)

/-- The `{signature, signer}` pair produced by `signPayload` in `sign.ts`. -/
structure SigResult where
  signature : String
  signer : String
  deriving DecidableEq, Repr

/-- The two signing backends invoked by `sign.ts`: `signWithEvm` (viem
`privateKeyToAccount` and `account.signMessage`) and `signWithSolana`
(tweetnacl `nacl.sign.detached` over a `Keypair` decoded from the key).
Both take the stringified payload and the secret key; `Except.error` models a
thrown exception (for example a malformed key). -/
structure CryptoBackend where
  evmSign : String → String → Except String SigResult
  solSign : String → String → Except String SigResult

/-- `signPayload` from `sign.ts`: stringify the payload
(`JSON.stringify(payload)`, modelled by the explicit `stringify` parameter)
and dispatch on the key format — `key.startsWith("0x")` selects the EVM path,
every other key selects the Solana path. -/
def signPayload {α : Type} (stringify : α → String) (b : CryptoBackend)
    (payload : α) (key : String) : Except String SigResult :=
  let payloadString := stringify payload
  if jsStartsWith key "0x" then b.evmSign payloadString key
  else b.solSign payloadString key

inductive LogLevel where
  | info
  | warn
  | error
  deriving DecidableEq, Repr

/-- One logger or console output line, identified by level and message tag. -/
structure LogEntry where
  level : LogLevel
  tag : String
  deriving DecidableEq, Repr

def logInfo (tag : String) : LogEntry := { level := LogLevel.info, tag := tag }

def logWarn (tag : String) : LogEntry := { level := LogLevel.warn, tag := tag }

def logError (tag : String) : LogEntry := { level := LogLevel.error, tag := tag }

/-- The `{proposal, signature, signer}` object returned by `signProposal`. -/
structure SignedProposal (α : Type) where
  proposal : α
  signature : String
  signer : String
  deriving DecidableEq, Repr

/-- `MessageResponseSchema` from `types.ts`: a signed proposal. -/
abbrev MessageResponse := SignedProposal ProposalResponse

/-- `signProposal` from `sign.ts`: returns `null` for a falsy proposal without
touching the signer; otherwise signs via `signPayload`, catching any signing
failure (`console.error("Signing", e)` followed by `return null`).  The
function is total: it never propagates an exception to its caller. -/
def signProposal {α : Type} (stringify : α → String) (b : CryptoBackend)
    (proposal : Option α) (key : String) : Option (SignedProposal α) × List LogEntry :=
  match proposal with
  | none => (none, [])
  | some p =>
    match signPayload stringify b p key with
    | Except.error _ => (none, [logError "Signing"])
    | Except.ok r =>
      (some { proposal := p, signature := r.signature, signer := r.signer }, [])

/-- `buildResponse` from `waku.ts`: invoke the handler (`config.handleMessage`,
which may throw, modelled by `Except`), re-validate a present result with
`ProposalResponseSchema.parse` (a failure throws a `ZodError`), then sign via
`signProposal`.  Every exception raised inside the `try` block is caught at
this boundary, logged, and converted into a `null` response; the function is
total and never propagates an exception. -/
def buildResponse (stringify : ProposalResponse → String) (b : CryptoBackend)
    (handleMessage : WakuMessage → Except String (Option RawProposalResponse))
    (key : String) (event : WakuMessage) : Option MessageResponse × List LogEntry :=
  match handleMessage event with
  | Except.error _ =>
    (none, [logError "Error validating message body or building response",
            logError "Error building response"])
  | Except.ok none => (none, [])
  | Except.ok (some raw) =>
    match parseProposalResponse raw with
    | none =>
      (none, [logError "Error validating message body or building response",
              logWarn "Invalid message body received"])
    | some proposal => signProposal stringify b (some proposal) key

/-- A `waku.sendMessage(payload, replyTo, senderKey, recipientKey?)` call
recorded by the model. -/
structure SendAction where
  payload : MessageResponse
  topic : String
  senderKey : String
  recipientKey : Option String
  deriving DecidableEq, Repr

/-- The confidential-channel subscription callback from
`subscribeToConfidentialMessages` in `waku.ts`: drop (with an error log) when
`body.signerPubKey` is falsy, then apply the type filter, then run
`buildResponse`, and finally send the encrypted response using the node's own
public key as sender and `body.signerPubKey` as recipient. -/
def onConfidentialMessage (stringify : ProposalResponse → String) (b : CryptoBackend)
    (handleMessage : WakuMessage → Except String (Option RawProposalResponse))
    (availableTypes : List String) (key : String) (publicKey : Option String)
    (event : WakuMessage) : Option SendAction × List LogEntry :=
  let received := [logInfo "Received confidential message"]
  if jsFalsyOptStr event.body.signerPubKey then
    (none, received ++ [logError "Missing sender public key in confidential request"])
  else if !(validateMessageType availableTypes event) then
    (none, received ++ [logWarn "Received unknown or missing type"])
  else
    match buildResponse stringify b handleMessage key event with
    | (none, logs) =>
      (none, received ++ logs ++ [logInfo "No response generated for confidential request"])
    | (some resp, logs) =>
      match publicKey with
      | none =>
        (none, received ++ logs ++
          [logInfo "Sending confidential response", logError "Waku public key is not available"])
      | some pk =>
        (some { payload := resp, topic := event.replyTo, senderKey := pk,
                recipientKey := event.body.signerPubKey },
         received ++ logs ++ [logInfo "Sending confidential response"])

/-- The Waku transport client, reduced to the state the router reads. -/
structure WakuClient where
  publicKey : Option String
  deriving Repr

/-- The fallible steps of `WakuTransport.initialize`: starting the client and
installing the three subscriptions.  Each `Except.error` models a thrown
exception in the corresponding step. -/
structure InitOps where
  startClient : Except String WakuClient
  subscribePublic : WakuClient → Except String Unit
  subscribeHandshake : WakuClient → Except String Unit
  subscribeConfidential : WakuClient → Except String Unit

/-- The mutable state of a `WakuTransport` instance: the `initialized` flag
(named `initDone` here) and the `waku` client reference. -/
structure RouterState where
  initDone : Bool
  waku : Option WakuClient
  deriving Repr

/-- `WakuTransport.initialize` from `waku.ts`: a no-op when already
initialized; otherwise start the client, install the subscriptions (the
handshake and confidential subscriptions return early when encryption is
disabled), and only then set the `initialized` flag.  The `catch` block logs
and re-throws the same error, so a failure leaves the flag unset and
propagates the error unmodified. -/
def routerInit (ops : InitOps) (encryptionEnabled : Bool)
    (st : RouterState) : RouterState × Except String Unit :=
  if st.initDone then (st, Except.ok ())
  else
    match ops.startClient with
    | Except.error e => (st, Except.error e)
    | Except.ok c =>
      let st1 : RouterState := { st with waku := some c }
      match ops.subscribePublic c with
      | Except.error e => (st1, Except.error e)
      | Except.ok _ =>
        match (if encryptionEnabled then ops.subscribeHandshake c else Except.ok ()) with
        | Except.error e => (st1, Except.error e)
        | Except.ok _ =>
          match (if encryptionEnabled then ops.subscribeConfidential c else Except.ok ()) with
          | Except.error e => (st1, Except.error e)
          | Except.ok _ => ({ st1 with initDone := true }, Except.ok ())

/-- Hexadecimal digit test for signature and address formats. -/
def isHexDigitChar (c : Char) : Bool :=
  (('0' ≤ c) && (c ≤ '9')) || (('a' ≤ c) && (c ≤ 'f')) || (('A' ≤ c) && (c ≤ 'F'))

/-- A `"0x"`-prefixed hexadecimal string (the EVM signature encoding). -/
def isHexString (s : String) : Bool :=
  jsStartsWith s "0x" && (s.data.drop 2).all isHexDigitChar

/-- Modelled from the spec: a checksummed EVM address — the viem account
address format, `"0x"` followed by 40 hexadecimal digits (the EIP-55 casing
itself depends on keccak, which is external to this repository and is not
modelled). -/
def isChecksummedAddress (s : String) : Bool :=
  jsStartsWith s "0x" && (s.data.length == 42) && (s.data.drop 2).all isHexDigitChar

/-- Base64 alphabet test (including the padding character). -/
def isBase64Char (c : Char) : Bool :=
  (('A' ≤ c) && (c ≤ 'Z')) || (('a' ≤ c) && (c ≤ 'z')) || (('0' ≤ c) && (c ≤ '9')) ||
  c = '+' || c = '/' || c = '='

/-- A base64-encoded string (the Solana signature encoding). -/
def isBase64String (s : String) : Bool :=
  (s.data.length % 4 == 0) && s.data.all isBase64Char

/-- Base58 alphabet test: alphanumeric without `0`, `O`, `I`, `l`. -/
def isBase58Char (c : Char) : Bool :=
  ((('A' ≤ c) && (c ≤ 'Z')) || (('a' ≤ c) && (c ≤ 'z')) || (('1' ≤ c) && (c ≤ '9'))) &&
  !(c = 'O' || c = 'I' || c = 'l')

/-- A base58-encoded string (the Solana public-key encoding). -/
def isBase58String (s : String) : Bool :=
  !(s.data.isEmpty) && s.data.all isBase58Char

/-- A signing backend that additionally receives an ambient randomness seed,
used to state determinism of the signing algorithms. -/
structure SeededBackend where
  evmSign : Nat → String → String → Except String SigResult
  solSign : Nat → String → String → Except String SigResult

/-- Modelled from the spec: the two signing primitives used by `sign.ts` —
viem personal-message ECDSA signing (deterministic per RFC 6979 nonces) and
tweetnacl detached Ed25519 signing (deterministic by construction) — consume
no ambient randomness, so the seeded backend simply ignores its seed. -/
def deterministicBackend (b : CryptoBackend) : SeededBackend :=
  { evmSign := fun _ => b.evmSign, solSign := fun _ => b.solSign }

/-- `signPayload` re-run against a seeded backend: identical to `signPayload`
except that each signing call also receives the ambient randomness seed. -/
def signPayloadSeeded {α : Type} (stringify : α → String) (sb : SeededBackend)
    (seed : Nat) (payload : α) (key : String) : Except String SigResult :=
  let payloadString := stringify payload
  if jsStartsWith key "0x" then sb.evmSign seed payloadString key
  else sb.solSign seed payloadString key

/-- A concrete fully specified transaction, used as input material. -/
def txA : Transaction :=
  { chainId := 1, toAddr := "0xdead", value := NumOrStr.num 0, data := "0x",
    gasLimit := none, gasPrice := none }

/-- A candidate proposal value that satisfies every condition named by claim
C1 — `titles` and `calls` present, a non-empty `transactions` list — but
lacks the required `description` field. -/
def rawNoDescription : RawProposalResponse :=
  { description := none, titles := some [], calls := some [],
    transactions := some [txA], partialTransactions := none }

/-- The uppercasing of a string is empty only for the empty string. -/
theorem jsToUpperCase_eq_empty_iff (s : String) : jsToUpperCase s = "" ↔ s = "" := by
  cases s with
  | mk l =>
    simp [jsToUpperCase, String.ext_iff]

/-- C1, counterexample: the value `rawNoDescription` has `titles` and `calls`
present and a non-empty `transactions` list — the acceptance conditions the
claim states — yet `ProposalResponseSchema.parse` rejects it, because the
required `description` field is absent.  So "validation accepts iff `titles`
and `calls` are present and one transaction list is non-empty" is false as
stated. -/
theorem proposalValidation_missing_description_cex :
    (rawNoDescription.titles.isSome = true ∧ rawNoDescription.calls.isSome = true ∧
      ((∃ l, rawNoDescription.transactions = some l ∧ 0 < l.length) ∨
       (∃ l, rawNoDescription.partialTransactions = some l ∧ 0 < l.length))) ∧
    parseProposalResponse rawNoDescription = none := by
  refine ⟨⟨rfl, rfl, Or.inl ⟨[txA], rfl, by decide⟩⟩, rfl⟩

/-- C1, amended: `ProposalResponseSchema.parse` accepts a value iff
`description`, `titles` and `calls` are all present (the lists possibly
empty) and at least one of `transactions` / `partialTransactions` is present
and non-empty; in particular every value in which both transaction lists are
absent or empty is rejected. -/
theorem proposalValidation_accepts_iff (r : RawProposalResponse) :
    (parseProposalResponse r).isSome = true ↔
      (r.description.isSome = true ∧ r.titles.isSome = true ∧ r.calls.isSome = true ∧
        ((∃ l, r.transactions = some l ∧ 0 < l.length) ∨
         (∃ l, r.partialTransactions = some l ∧ 0 < l.length))) := by
  rcases r with ⟨d, ts, cs, txs, ptxs⟩
  cases d <;> cases ts <;> cases cs <;> simp [parseProposalResponse, proposalRefine]
  cases txs <;> cases ptxs <;> simp [apply_ite Option.isSome]

/-- C3: the type filter accepts every event when `AVAILABLE_TYPES` is empty;
when it is non-empty it accepts exactly the events whose uppercased
`body.type` is a member of the list; concretely, with `AVAILABLE_TYPES =
["SWAP"]` a message of type `"swap"` passes and one of type `"YIELD"` is
rejected. -/
theorem validateMessageType_spec :
    (∀ event : WakuMessage, validateMessageType [] event = true) ∧
    (∀ (availableTypes : List String) (event : WakuMessage), availableTypes ≠ [] →
      (validateMessageType availableTypes event = true ↔
        jsToUpperCase event.body.type ∈ availableTypes)) ∧
    validateMessageType ["SWAP"] (mkEvent "swap" none) = true ∧
    validateMessageType ["SWAP"] (mkEvent "YIELD" none) = false := by
  refine ⟨fun event => rfl, fun availableTypes event h => ?_, by decide, by decide⟩
  have hlen : (availableTypes.length == 0) = false := by
    simp [List.length_eq_zero, h]
  simp [validateMessageType, hlen, List.elem_iff]

/-- C3, witness: the membership characterisation applied to the non-empty
filter list `["SWAP"]` and a concrete lower-case event. -/
theorem validateMessageType_spec_witness :
    validateMessageType ["SWAP"] (mkEvent "swap" none) = true ↔
      jsToUpperCase (mkEvent "swap" none).body.type ∈ ["SWAP"] :=
  validateMessageType_spec.2.1 ["SWAP"] (mkEvent "swap" none) (by decide)

/-- C9: setting the `AVAILABLE_TYPES` environment variable to the empty
string (as opposed to leaving it unset) produces the one-element filter list
`[""]`, not the empty list, so the "empty list accepts everything" rule does
not apply and every event whose `body.type` is a non-empty string is rejected
by the type filter. -/
theorem availableTypes_empty_string_rejects :
    parseAvailableTypes (some "") = [""] ∧
    (∀ event : WakuMessage, event.body.type ≠ "" →
      validateMessageType (parseAvailableTypes (some "")) event = false) := by
  refine ⟨by decide, fun event h => ?_⟩
  have hup : jsToUpperCase event.body.type ≠ "" := by
    simpa [jsToUpperCase_eq_empty_iff] using h
  have hrw : parseAvailableTypes (some "") = [""] := by decide
  rw [hrw]
  simp [validateMessageType, List.elem_iff, hup]

/-- C9, witness: a concrete event of type `"YIELD"` is rejected under the
filter list built from `AVAILABLE_TYPES=""`. -/
theorem availableTypes_empty_string_rejects_witness :
    validateMessageType (parseAvailableTypes (some "")) (mkEvent "YIELD" none) = false :=
  availableTypes_empty_string_rejects.2 (mkEvent "YIELD" none) (by decide)

/-- A concrete signing backend whose outputs have the formats the spec
attributes to viem and tweetnacl, used to instantiate the backend
hypotheses. -/
def demoBackend : CryptoBackend :=
  { evmSign := fun _ _ =>
      Except.ok { signature := "0xab",
                  signer := "0xaaaaaaaaaaaaaaaaaaaaaaaaaaaaaaaaaaaaaaaa" },
    solSign := fun _ _ => Except.ok { signature := "QUJD", signer := "Abc1" } }

/-- A concrete signing backend in which both algorithms throw. -/
def failBackend : CryptoBackend :=
  { evmSign := fun _ _ => Except.error "evm failure",
    solSign := fun _ _ => Except.error "sol failure" }

/-- C2: `signPayload` dispatches purely syntactically on the key format — a
key beginning with `"0x"` selects the EVM path, any other key (in particular
every well-formed JSON integer-array key) selects the Solana path — and,
provided the backends produce the encodings the spec attributes to viem
(hex signature, checksummed address) and tweetnacl (base64 signature,
base58 public key), the respective branch of `signPayload` returns exactly
those encodings. -/
theorem signPayload_dispatch (α : Type) (stringify : α → String) (b : CryptoBackend)
    (payload : α) (key : String)
    (hevm : ∀ s k r, b.evmSign s k = Except.ok r →
      isHexString r.signature = true ∧ isChecksummedAddress r.signer = true)
    (hsol : ∀ s k r, b.solSign s k = Except.ok r →
      isBase64String r.signature = true ∧ isBase58String r.signer = true) :
    (jsStartsWith key "0x" = true →
      signPayload stringify b payload key = b.evmSign (stringify payload) key ∧
      ∀ r, signPayload stringify b payload key = Except.ok r →
        isHexString r.signature = true ∧ isChecksummedAddress r.signer = true) ∧
    (jsStartsWith key "0x" = false →
      signPayload stringify b payload key = b.solSign (stringify payload) key ∧
      ∀ r, signPayload stringify b payload key = Except.ok r →
        isBase64String r.signature = true ∧ isBase58String r.signer = true) := by
  constructor
  · intro h
    have he : signPayload stringify b payload key = b.evmSign (stringify payload) key := by
      simp [signPayload, h]
    exact ⟨he, fun r hr => hevm _ _ _ (he.symm.trans hr)⟩
  · intro h
    have hs : signPayload stringify b payload key = b.solSign (stringify payload) key := by
      simp [signPayload, h]
    exact ⟨hs, fun r hr => hsol _ _ _ (hs.symm.trans hr)⟩

/-- C2, witness: with a concrete backend satisfying the format hypotheses, a
`"0x"` key routes to the EVM signer and a JSON-array key routes to the Solana
signer. -/
theorem signPayload_dispatch_witness :
    signPayload (fun _ : Nat => "payload") demoBackend 0 "0x01" =
      demoBackend.evmSign "payload" "0x01" ∧
    signPayload (fun _ : Nat => "payload") demoBackend 0 "[1,2]" =
      demoBackend.solSign "payload" "[1,2]" := by
  have hevm : ∀ s k r, demoBackend.evmSign s k = Except.ok r →
      isHexString r.signature = true ∧ isChecksummedAddress r.signer = true := by
    intro s k r hr
    simp only [demoBackend] at hr
    cases hr
    exact ⟨by decide, by decide⟩
  have hsol : ∀ s k r, demoBackend.solSign s k = Except.ok r →
      isBase64String r.signature = true ∧ isBase58String r.signer = true := by
    intro s k r hr
    simp only [demoBackend] at hr
    cases hr
    exact ⟨by decide, by decide⟩
  exact ⟨((signPayload_dispatch Nat (fun _ => "payload") demoBackend 0 "0x01" hevm hsol).1
            (by decide)).1,
         ((signPayload_dispatch Nat (fun _ => "payload") demoBackend 0 "[1,2]" hevm hsol).2
            (by decide)).1⟩

/-- A handler that throws on every message. -/
def handleBoom : WakuMessage → Except String (Option RawProposalResponse) :=
  fun _ => Except.error "boom"

/-- A proposal value rejected by the refine rule: both transaction lists are
absent. -/
def rawBad : RawProposalResponse :=
  { description := some "d", titles := some [], calls := some [],
    transactions := none, partialTransactions := none }

/-- A handler returning a proposal that fails schema validation. -/
def handleBad : WakuMessage → Except String (Option RawProposalResponse) :=
  fun _ => Except.ok (some rawBad)

/-- A proposal value accepted by `ProposalResponseSchema.parse`. -/
def rawGood : RawProposalResponse :=
  { description := some "d", titles := some [], calls := some [],
    transactions := some [txA], partialTransactions := none }

/-- The parsed form of `rawGood`. -/
def propGood : ProposalResponse :=
  { description := "d", titles := [], calls := [],
    transactions := some [txA], partialTransactions := none }

/-- A handler returning a schema-valid proposal. -/
def handleGood : WakuMessage → Except String (Option RawProposalResponse) :=
  fun _ => Except.ok (some rawGood)

/-- C4: `buildResponse` converts every exception raised inside the
response-building pipeline into an absent response with log output, and never
propagates an exception (it is a total function into
`Option MessageResponse × List LogEntry`): a throwing handler yields `none`
with two error log lines, a proposal failing schema validation yields `none`
with an error and a warning, a signing failure yields `none` with the
`Signing` console error, and a `null` handler result yields `none`
silently. -/
theorem buildResponse_catches_all (stringify : ProposalResponse → String) (b : CryptoBackend)
    (handleMessage : WakuMessage → Except String (Option RawProposalResponse))
    (key : String) (event : WakuMessage) :
    (∀ e, handleMessage event = Except.error e →
      buildResponse stringify b handleMessage key event =
        (none, [logError "Error validating message body or building response",
                logError "Error building response"])) ∧
    (∀ raw, handleMessage event = Except.ok (some raw) → parseProposalResponse raw = none →
      buildResponse stringify b handleMessage key event =
        (none, [logError "Error validating message body or building response",
                logWarn "Invalid message body received"])) ∧
    (∀ raw p e, handleMessage event = Except.ok (some raw) →
      parseProposalResponse raw = some p →
      signPayload stringify b p key = Except.error e →
      buildResponse stringify b handleMessage key event = (none, [logError "Signing"])) ∧
    (handleMessage event = Except.ok none →
      buildResponse stringify b handleMessage key event = (none, [])) := by
  refine ⟨?_, ?_, ?_, ?_⟩
  · intro e h
    simp [buildResponse, h]
  · intro raw h hp
    simp [buildResponse, h, hp]
  · intro raw p e h hp hs
    simp [buildResponse, h, hp, signProposal, hs]
  · intro h
    simp [buildResponse, h]

/-- C4, witness: the three failure modes evaluated on concrete handlers,
backends and a concrete event. -/
theorem buildResponse_catches_all_witness :
    buildResponse (fun _ => "p") demoBackend handleBoom "0x01" (mkEvent "swap" none) =
      (none, [logError "Error validating message body or building response",
              logError "Error building response"]) ∧
    buildResponse (fun _ => "p") demoBackend handleBad "0x01" (mkEvent "swap" none) =
      (none, [logError "Error validating message body or building response",
              logWarn "Invalid message body received"]) ∧
    buildResponse (fun _ => "p") failBackend handleGood "0x01" (mkEvent "swap" none) =
      (none, [logError "Signing"]) :=
  ⟨(buildResponse_catches_all (fun _ => "p") demoBackend handleBoom "0x01"
      (mkEvent "swap" none)).1 "boom" rfl,
   (buildResponse_catches_all (fun _ => "p") demoBackend handleBad "0x01"
      (mkEvent "swap" none)).2.1 rawBad rfl rfl,
   (buildResponse_catches_all (fun _ => "p") failBackend handleGood "0x01"
      (mkEvent "swap" none)).2.2.1 rawGood propGood "evm failure" rfl (by decide) rfl⟩

/-- C5: on the confidential channel, a message whose body lacks
`signerPubKey` is dropped with a single error log, before the type filter is
consulted and before the handler could run: the outcome is a constant that
does not depend on the handler or on `AVAILABLE_TYPES`, and no send is
attempted. -/
theorem confidential_missing_signerPubKey_drops (stringify : ProposalResponse → String)
    (b : CryptoBackend)
    (handleMessage : WakuMessage → Except String (Option RawProposalResponse))
    (availableTypes : List String) (key : String) (publicKey : Option String)
    (event : WakuMessage) (h : event.body.signerPubKey = none) :
    onConfidentialMessage stringify b handleMessage availableTypes key publicKey event =
      (none, [logInfo "Received confidential message",
              logError "Missing sender public key in confidential request"]) ∧
    (∀ (handleMessage2 : WakuMessage → Except String (Option RawProposalResponse))
       (availableTypes2 : List String),
      onConfidentialMessage stringify b handleMessage2 availableTypes2 key publicKey event =
        onConfidentialMessage stringify b handleMessage availableTypes key publicKey event) := by
  have hmain : ∀ (hm : WakuMessage → Except String (Option RawProposalResponse))
      (at2 : List String),
      onConfidentialMessage stringify b hm at2 key publicKey event =
        (none, [logInfo "Received confidential message",
                logError "Missing sender public key in confidential request"]) := by
    intro hm at2
    simp [onConfidentialMessage, h, jsFalsyOptStr]
  exact ⟨hmain handleMessage availableTypes,
         fun hm2 at2 =>
           (hmain hm2 at2).trans (hmain handleMessage availableTypes).symm⟩

/-- C5, witness: a concrete confidential event without `signerPubKey` — of a
type that the filter `["SWAP"]` would reject and with a handler that would
answer — is dropped with exactly the missing-key error log. -/
theorem confidential_missing_signerPubKey_drops_witness :
    onConfidentialMessage (fun _ => "p") demoBackend handleGood ["SWAP"] "0x01"
      (some "pk") (mkEvent "YIELD" none) =
      (none, [logInfo "Received confidential message",
              logError "Missing sender public key in confidential request"]) :=
  (confidential_missing_signerPubKey_drops (fun _ => "p") demoBackend handleGood ["SWAP"]
    "0x01" (some "pk") (mkEvent "YIELD" none) rfl).1

/-- C6: `signProposal` returns `null` immediately for an absent proposal —
the result is the same for every backend, so the signer is never consulted —
logs and returns `null` on any signing failure, and on success returns
exactly the `{proposal, signature, signer}` object; being a total function it
never raises to its caller. -/
theorem signProposal_null_and_failure (α : Type) (stringify : α → String)
    (b : CryptoBackend) (key : String) :
    (signProposal stringify b (none : Option α) key = (none, [])) ∧
    (∀ p e, signPayload stringify b p key = Except.error e →
      signProposal stringify b (some p) key = (none, [logError "Signing"])) ∧
    (∀ p r, signPayload stringify b p key = Except.ok r →
      signProposal stringify b (some p) key =
        (some { proposal := p, signature := r.signature, signer := r.signer }, [])) := by
  refine ⟨rfl, ?_, ?_⟩
  · intro p e h
    simp [signProposal, h]
  · intro p r h
    simp [signProposal, h]

/-- C6, witness: `signProposal` on `none`, on a failing backend, and on a
succeeding backend, at concrete inputs. -/
theorem signProposal_null_and_failure_witness :
    signProposal (fun _ : Nat => "p") failBackend (none : Option Nat) "0x01" = (none, []) ∧
    signProposal (fun _ : Nat => "p") failBackend (some 3) "0x01" =
      (none, [logError "Signing"]) ∧
    signProposal (fun _ : Nat => "p") demoBackend (some 3) "0x01" =
      (some { proposal := 3, signature := "0xab",
              signer := "0xaaaaaaaaaaaaaaaaaaaaaaaaaaaaaaaaaaaaaaaa" }, []) :=
  ⟨(signProposal_null_and_failure Nat (fun _ => "p") failBackend "0x01").1,
   (signProposal_null_and_failure Nat (fun _ => "p") failBackend "0x01").2.1 3
     "evm failure" rfl,
   (signProposal_null_and_failure Nat (fun _ => "p") demoBackend "0x01").2.2 3
     { signature := "0xab", signer := "0xaaaaaaaaaaaaaaaaaaaaaaaaaaaaaaaaaaaaaaaa" }
     rfl⟩

/-- C7: signing is deterministic — run against the seeded backend in which
both algorithms ignore ambient randomness (which models the spec's statement
that viem ECDSA and tweetnacl Ed25519 are deterministic), `signPayload`
returns byte-for-byte the same signature and the same signer identity
whatever the seed, and agrees with the unseeded `signPayload`. -/
theorem signPayload_deterministic (α : Type) (stringify : α → String) (b : CryptoBackend)
    (seed1 seed2 : Nat) (payload : α) (key : String) :
    signPayloadSeeded stringify (deterministicBackend b) seed1 payload key =
      signPayload stringify b payload key ∧
    signPayloadSeeded stringify (deterministicBackend b) seed1 payload key =
      signPayloadSeeded stringify (deterministicBackend b) seed2 payload key :=
  ⟨rfl, rfl⟩

/-- C8: `initialize` is idempotent after success — with the `initialized`
flag set it returns immediately without touching the transport — and atomic
on failure: whenever it returns an error, the flag is still unset and the
error is exactly the one thrown by the failing startup step (client start,
public subscription, or — only with encryption enabled — the handshake or
confidential subscription), propagated unmodified. -/
theorem routerInit_idempotent_atomic (ops : InitOps) (encryptionEnabled : Bool)
    (st : RouterState) :
    (st.initDone = true → routerInit ops encryptionEnabled st = (st, Except.ok ())) ∧
    (∀ e, (routerInit ops encryptionEnabled st).2 = Except.error e →
      (routerInit ops encryptionEnabled st).1.initDone = false ∧
      (ops.startClient = Except.error e ∨
        ∃ c, ops.startClient = Except.ok c ∧
          (ops.subscribePublic c = Except.error e ∨
            (encryptionEnabled = true ∧
              (ops.subscribeHandshake c = Except.error e ∨
               ops.subscribeConfidential c = Except.error e))))) := by
  constructor
  · intro h
    simp [routerInit, h]
  · intro e h
    cases hinit : st.initDone with
    | true => simp [routerInit, hinit] at h
    | false =>
      cases encryptionEnabled with
      | false =>
        rcases hs : ops.startClient with es | c
        · have hr : routerInit ops false st = (st, Except.error es) := by
            simp [routerInit, hinit, hs]
          rw [hr] at h
          simp at h
          subst h
          rw [hr]
          exact ⟨hinit, Or.inl rfl⟩
        · rcases hp : ops.subscribePublic c with ep | u
          · have hr : routerInit ops false st =
                ({ st with waku := some c }, Except.error ep) := by
              simp [routerInit, hinit, hs, hp]
            rw [hr] at h
            simp at h
            subst h
            rw [hr]
            exact ⟨hinit, Or.inr ⟨c, rfl, Or.inl hp⟩⟩
          · simp [routerInit, hinit, hs, hp] at h
      | true =>
        rcases hs : ops.startClient with es | c
        · have hr : routerInit ops true st = (st, Except.error es) := by
            simp [routerInit, hinit, hs]
          rw [hr] at h
          simp at h
          subst h
          rw [hr]
          exact ⟨hinit, Or.inl rfl⟩
        · rcases hp : ops.subscribePublic c with ep | u
          · have hr : routerInit ops true st =
                ({ st with waku := some c }, Except.error ep) := by
              simp [routerInit, hinit, hs, hp]
            rw [hr] at h
            simp at h
            subst h
            rw [hr]
            exact ⟨hinit, Or.inr ⟨c, rfl, Or.inl hp⟩⟩
          · rcases hh : ops.subscribeHandshake c with eh | uh
            · have hr : routerInit ops true st =
                  ({ st with waku := some c }, Except.error eh) := by
                simp [routerInit, hinit, hs, hp, hh]
              rw [hr] at h
              simp at h
              subst h
              rw [hr]
              exact ⟨hinit, Or.inr ⟨c, rfl, Or.inr ⟨rfl, Or.inl hh⟩⟩⟩
            · rcases hc : ops.subscribeConfidential c with ec | uc
              · have hr : routerInit ops true st =
                    ({ st with waku := some c }, Except.error ec) := by
                  simp [routerInit, hinit, hs, hp, hh, hc]
                rw [hr] at h
                simp at h
                subst h
                rw [hr]
                exact ⟨hinit, Or.inr ⟨c, rfl, Or.inr ⟨rfl, Or.inr hc⟩⟩⟩
              · simp [routerInit, hinit, hs, hp, hh, hc] at h

/-- Concrete startup steps in which the public subscription throws. -/
def opsFailPub : InitOps :=
  { startClient := Except.ok { publicKey := none },
    subscribePublic := fun _ => Except.error "boom",
    subscribeHandshake := fun _ => Except.ok (),
    subscribeConfidential := fun _ => Except.ok () }

/-- C8, witness: an already-initialized router is untouched, and after a
failing public subscription the flag is still unset. -/
theorem routerInit_idempotent_atomic_witness :
    routerInit opsFailPub false { initDone := true, waku := none } =
      ({ initDone := true, waku := none }, Except.ok ()) ∧
    (routerInit opsFailPub false { initDone := false, waku := none }).1.initDone = false :=
  ⟨(routerInit_idempotent_atomic opsFailPub false { initDone := true, waku := none }).1 rfl,
   ((routerInit_idempotent_atomic opsFailPub false
      { initDone := false, waku := none }).2 "boom" rfl).1⟩

/-- C10: on signing success the `proposal` field of the returned object is
the input proposal itself, unchanged — `signProposal` adds `signature` and
`signer` alongside it but never alters the proposal value. -/
theorem signProposal_preserves_proposal (α : Type) (stringify : α → String)
    (b : CryptoBackend) (p : α) (key : String) (sp : SignedProposal α)
    (logs : List LogEntry)
    (h : signProposal stringify b (some p) key = (some sp, logs)) :
    sp.proposal = p := by
  cases hsig : signPayload stringify b p key with
  | error e => simp [signProposal, hsig] at h
  | ok r =>
    simp [signProposal, hsig] at h
    rw [← h.1]

/-- C10, witness: the signed object built by a concrete successful run
carries the input proposal `3` unchanged. -/
theorem signProposal_preserves_proposal_witness :
    ({ proposal := 3, signature := "0xab",
       signer := "0xaaaaaaaaaaaaaaaaaaaaaaaaaaaaaaaaaaaaaaaa" } : SignedProposal Nat).proposal
      = 3 :=
  signProposal_preserves_proposal Nat (fun _ => "p") demoBackend 3 "0x01" _ [] (by decide)

end SolverSDK
